import Mathlib

/-!
Verification development for the photo-search backend.

The repository consists of two AWS Lambda handlers:

* `backend-services/index_photos/lambda_function.py` — the Ingestion
  Pipeline: triggered by S3 PUT events, it fetches custom labels from
  object metadata, detects labels via Rekognition, merges the two label
  lists and upserts one document per record into the search index.
* `backend-services/search_photos/lambda_function.py` — the Query
  Resolver: triggered by an HTTP request, it resolves free text to
  keywords via Lex, queries the index and returns pre-signed URLs.

The embedding below models Python strings as Lean `String`s (lists of
unicode code points), the external collaborators (S3, Rekognition,
Lex, OpenSearch) as oracle functions supplied in an environment
record, and exceptions as `Except`.  Each handler additionally returns
a log of the collaborator calls it made, so that claims about calls
being made or skipped are expressible.
-/

namespace PhotoSearch

/-! ### Python string primitives

`str.strip()`, `str.lower()` and `str.split(',')` as used by
`get_custom_labels` and `detect_labels`.  `Char.toLower` from core
Lean is exactly Python lower-casing restricted to basic latin
(the only range exercised by label data in this program).  `wsChar`
is the Python whitespace class used by `str.strip()`. -/

def wsChar (c : Char) : Bool :=
  c = ' ' || c = '\t' || c = '\n' || c = '\r' || c = '\x0b' || c = '\x0c'

/-- Characters of `l` with leading and trailing whitespace removed,
the core of Python `str.strip()`. -/
def stripChars (l : List Char) : List Char :=
  ((l.dropWhile wsChar).reverse.dropWhile wsChar).reverse

/-- Python `s.strip()`. -/
def pyStrip (s : String) : String :=
  String.mk (stripChars s.data)

/-- Python `s.lower()` (basic-latin range). -/
def pyLower (s : String) : String :=
  String.mk (s.data.map Char.toLower)

/-- Splitting helper: accumulates the current piece (reversed) while
scanning for commas. -/
def splitCommaAux : List Char → List Char → List (List Char)
  | [], acc => [acc.reverse]
  | c :: rest, acc =>
    if c = ',' then acc.reverse :: splitCommaAux rest [] else splitCommaAux rest (c :: acc)

/-- Python `s.split(',')`. -/
def pySplitComma (s : String) : List String :=
  (splitCommaAux s.data []).map String.mk

/-! ### Ingestion Pipeline (`index_photos/lambda_function.py`)

The environment carries the batch of S3 records from the triggering
event together with oracles for the external collaborators: S3
`head_object` metadata, the `Name` fields of the Rekognition
`detect_labels` response (the `MaxLabels=10` / `MinConfidence=70`
filtering is applied server-side by Rekognition), the OpenSearch
`index` call (returning the `result` field on success), and the
wall clock used for `createdTimestamp`. -/

structure S3Record where
  bucket : String
  key : String
deriving DecidableEq, Repr

structure PhotoDoc where
  objectKey : String
  bucket : String
  createdTimestamp : String
  labels : List String
deriving DecidableEq, Repr

structure IndexEnv where
  records : List S3Record
  headMeta : String → String → Except String (List (String × String))
  rekogNames : String → String → Except String (List String)
  esIndex : PhotoDoc → String → Except String String
  now : String

/-- Pure core of `get_custom_labels`: split the comma-separated
metadata value, strip and lower-case each piece, keep non-empty ones.
Mirrors the body guarded by `if custom_labels_str:`. -/
def parse_custom_labels (custom_labels_str : String) : List String :=
  if custom_labels_str = "" then []
  else
    ((pySplitComma custom_labels_str).map (fun label => pyLower (pyStrip label))).filter
      (fun label => label ≠ "")

/-- `get_custom_labels(bucket, key)`: reads the `customlabels` metadata
key (absent key defaults to the empty string); any exception is caught
and degrades to `[]`. -/
def get_custom_labels (env : IndexEnv) (bucket key : String) : List String :=
  match env.headMeta bucket key with
  | Except.ok metadata => parse_custom_labels ((metadata.lookup "customlabels").getD "")
  | Except.error _ => []

/-- Pure core of `detect_labels`: `[label['Name'].lower() for label in response['Labels']]`. -/
def detect_label_names (names : List String) : List String :=
  names.map pyLower

/-- `detect_labels(bucket, key)`: any exception is caught and degrades to `[]`. -/
def detect_labels (env : IndexEnv) (bucket key : String) : List String :=
  match env.rekogNames bucket key with
  | Except.ok names => detect_label_names names
  | Except.error _ => []

/-- Label reconciliation: `list(set(rekognition_labels + custom_labels))`.
A Python `set` of the concatenation is a duplicate-free list with the
same members; `dedup` is such a list. -/
def reconcile (rekognition_labels custom_labels : List String) : List String :=
  (rekognition_labels ++ custom_labels).dedup

/-- The `photo_doc` dictionary built for one record. -/
def photo_doc (env : IndexEnv) (r : S3Record) : PhotoDoc :=
  { objectKey := r.key
    bucket := r.bucket
    createdTimestamp := env.now
    labels := reconcile (detect_labels env r.bucket r.key) (get_custom_labels env r.bucket r.key) }

/-- `index_to_elasticsearch(document, doc_id)`: an error from the client
propagates; a response whose `result` field is neither `created` nor
`updated` raises `Unexpected result: ...` (the `raise` in the handler
re-raises after logging). -/
def index_to_elasticsearch (env : IndexEnv) (document : PhotoDoc) (doc_id : String) :
    Except String Unit :=
  match env.esIndex document doc_id with
  | Except.error e => Except.error e
  | Except.ok result =>
    if result = "created" ∨ result = "updated" then Except.ok ()
    else Except.error ("Unexpected result: " ++ result)

/-- The `for record in event['Records']` loop.  Returns the list of
`(document, doc_id)` pairs for which an index upsert was attempted,
together with the outcome: the first raised exception aborts the loop
(the loop sits inside the handler's single `try`). -/
def runRecords (env : IndexEnv) : List S3Record → List (PhotoDoc × String) × Except String Unit
  | [] => ([], Except.ok ())
  | r :: rest =>
    match index_to_elasticsearch env (photo_doc env r) r.key with
    | Except.ok _ =>
      let p := runRecords env rest
      ((photo_doc env r, r.key) :: p.fst, p.snd)
    | Except.error e => ([(photo_doc env r, r.key)], Except.error e)

structure LambdaResp where
  statusCode : Nat
  body : String
deriving DecidableEq, Repr

/-- `lambda_handler` of the Ingestion Pipeline: processes the batch
inside one `try`; on success returns 200, on the first escaping
exception returns 500 with that single error message.  The second
component is the trace of attempted index upserts. -/
def lambda_handler_index (env : IndexEnv) : LambdaResp × List (PhotoDoc × String) :=
  let p := runRecords env env.records
  match p.snd with
  | Except.ok _ =>
    ({ statusCode := 200, body := "Successfully processed and indexed photos" }, p.fst)
  | Except.error e =>
    ({ statusCode := 500, body := "Error processing photo = " ++ e }, p.fst)

/-! ### Query Resolver (`search_photos/lambda_function.py`)

The environment carries the inbound event's `queryStringParameters`
(`none` models a missing or null entry) and oracles for Lex
`recognize_text`, the OpenSearch `search` call (returning the list of
`_source` documents of the hits), and S3 `generate_presigned_url`.
The handler returns the HTTP response together with a log of the
collaborator calls it made. -/

structure SlotValue where
  originalValue : String
deriving DecidableEq, Repr

structure SlotData where
  value : Option SlotValue
deriving DecidableEq, Repr

/-- The part of the Lex response the handler reads:
`lex_response.get('sessionState', {}).get('intent', {}).get('slots', {})`,
a mapping from slot names to possibly-null slot data, in iteration
order.  A missing level of the `.get` chain is modelled as `slots = []`. -/
structure LexResponse where
  slots : List (String × Option SlotData)
deriving DecidableEq, Repr

/-- A stored document as returned in a search hit's `_source`. -/
structure Photo where
  bucket : String
  objectKey : String
  labels : List String
deriving DecidableEq, Repr

/-- JSON-like values, used for the OpenSearch request body. -/
inductive JVal where
  | str : String → JVal
  | num : Nat → JVal
  | arr : List JVal → JVal
  | obj : List (String × JVal) → JVal
deriving Repr

/-- Field lookup in a JSON object. -/
def jLookup (v : JVal) (k : String) : Option JVal :=
  match v with
  | JVal.obj fields => fields.lookup k
  | _ => none

structure SearchResult where
  url : String
  labels : List String
deriving DecidableEq, Repr

/-- Response payload: `{'results': ...}` on success,
`{'error': str(e), 'results': []}` on failure. -/
structure RespBody where
  error : Option String
  results : List SearchResult
deriving DecidableEq, Repr

structure HttpResp where
  statusCode : Nat
  headers : List (String × String)
  body : RespBody
deriving DecidableEq, Repr

structure SearchEnv where
  queryStringParameters : Option (List (String × String))
  lex : String → Except String LexResponse
  esSearch : JVal → Except String (List Photo)
  presign : String → String → Except String String

/-- Trace of collaborator calls made during one handler run. -/
structure CallLog where
  lexCalls : List String
  esCalls : List JVal
  presignCalls : List (String × String)

def cors_headers : List (String × String) :=
  [("Access-Control-Allow-Origin", "*"),
   ("Access-Control-Allow-Headers", "Content-Type"),
   ("Access-Control-Allow-Methods", "OPTIONS,GET")]

def response_handler (status_code : Nat) (response_payload : RespBody) : HttpResp :=
  { statusCode := status_code, headers := cors_headers, body := response_payload }

/-- Keyword extraction loop over the Lex slots:
appends `slot_data['value']['originalValue']` for every slot whose
`slot_data` and `slot_data.get('value')` are both truthy.  The
surrounding `if slots:` guard is a no-op for an empty mapping. -/
def extract_keywords (slots : List (String × Option SlotData)) : List String :=
  slots.foldl
    (fun keywords p =>
      match p.snd with
      | some slot_data =>
        match slot_data.value with
        | some v => keywords ++ [v.originalValue]
        | none => keywords
      | none => keywords)
    []

/-- Modelled from the spec: contract 4.4 `extractKeywords` — the ordered
sequence of each slot's recognized original text value, skipping slots
with no recognized value.  Stated for comparison with the source-level
`extract_keywords`. -/
def extractKeywordsSpec (slots : List (String × Option SlotData)) : List String :=
  slots.filterMap (fun p => (p.snd.bind SlotData.value).map SlotValue.originalValue)

/-- One `{"match": {"labels": keyword}}` clause. -/
def match_clause (keyword : String) : JVal :=
  JVal.obj [("match", JVal.obj [("labels", JVal.str keyword)])]

/-- The `query_body` dictionary sent to OpenSearch. -/
def query_body (keywords : List String) : JVal :=
  JVal.obj
    [("query", JVal.obj
      [("bool", JVal.obj
        [("should", JVal.arr (keywords.map match_clause)),
         ("minimum_should_match", JVal.num 1)])]),
     ("size", JVal.num 100)]

/-- `search_elasticsearch(keywords)`: sends `query_body keywords`; any
exception is caught and degrades to `[]`. -/
def search_elasticsearch (env : SearchEnv) (keywords : List String) : List Photo :=
  match env.esSearch (query_body keywords) with
  | Except.ok sources => sources
  | Except.error _ => []

/-- `generate_pre_signed_urls(photos)`: one presign call per photo in
order; a failure is re-raised (wrapped) and aborts the loop.  The first
component is the trace of attempted presign calls. -/
def generate_pre_signed_urls (env : SearchEnv) :
    List Photo → List (String × String) × Except String (List SearchResult)
  | [] => ([], Except.ok [])
  | photo :: rest =>
    match env.presign photo.bucket photo.objectKey with
    | Except.error e =>
      ([(photo.bucket, photo.objectKey)],
       Except.error ("Error generating pre-signed URL: " ++ e))
    | Except.ok url =>
      let p := generate_pre_signed_urls env rest
      ((photo.bucket, photo.objectKey) :: p.fst,
       match p.snd with
       | Except.error e => Except.error e
       | Except.ok results => Except.ok ({ url := url, labels := photo.labels } :: results))

/-- The query text the handler ends up acting on:
`query = event['queryStringParameters'].get('q', '')` guarded by
presence and truthiness of `queryStringParameters`, then the
`if not query:` falsiness test.  `none` means the 400 branch is taken. -/
def query_truthy (env : SearchEnv) : Option String :=
  match env.queryStringParameters with
  | some params =>
    if params = [] then none
    else
      let q := (params.lookup "q").getD ""
      if q = "" then none else some q
  | none => none

/-- `lambda_handler` of the Query Resolver, paired with the trace of
collaborator calls it made. -/
def lambda_handler_search (env : SearchEnv) : HttpResp × CallLog :=
  match query_truthy env with
  | none => (response_handler 400 { error := none, results := [] },
             { lexCalls := [], esCalls := [], presignCalls := [] })
  | some q =>
    match env.lex q with
    | Except.error e =>
      (response_handler 500 { error := some e, results := [] },
       { lexCalls := [q], esCalls := [], presignCalls := [] })
    | Except.ok lex_response =>
      let keywords := extract_keywords lex_response.slots
      if keywords = [] then
        (response_handler 200 { error := none, results := [] },
         { lexCalls := [q], esCalls := [], presignCalls := [] })
      else
        let photos := search_elasticsearch env keywords
        if photos = [] then
          (response_handler 200 { error := none, results := [] },
           { lexCalls := [q], esCalls := [query_body keywords], presignCalls := [] })
        else
          let gen := generate_pre_signed_urls env photos
          match gen.snd with
          | Except.error e =>
            (response_handler 500 { error := some e, results := [] },
             { lexCalls := [q], esCalls := [query_body keywords], presignCalls := gen.fst })
          | Except.ok results =>
            (response_handler 200 { error := none, results := results },
             { lexCalls := [q], esCalls := [query_body keywords], presignCalls := gen.fst })

/-! ### Concrete environments used to instantiate the theorems -/

/-- Two-record batch whose index writes always fail. -/
def envIndexFail : IndexEnv :=
  { records := [{ bucket := "b1", key := "k1" }, { bucket := "b1", key := "k2" }]
    headMeta := fun _ _ => Except.ok []
    rekogNames := fun _ _ => Except.ok []
    esIndex := fun _ _ => Except.error "boom"
    now := "2024-01-01T00:00:00" }

/-- One record with empty object key and empty bucket; all collaborators succeed. -/
def envEmptyRecord : IndexEnv :=
  { records := [{ bucket := "", key := "" }]
    headMeta := fun _ _ => Except.ok []
    rekogNames := fun _ _ => Except.ok []
    esIndex := fun _ _ => Except.ok "created"
    now := "2024-01-01T00:00:00" }

/-- A Lex response resolving one slot to the keyword `dog`. -/
def lexRespDog : LexResponse :=
  { slots := [("Keyword", some { value := some { originalValue := "dog" } })] }

/-- Search request whose query resolves to one keyword and whose search
returns no hits. -/
def envSearchOk : SearchEnv :=
  { queryStringParameters := some [("q", "show me dogs")]
    lex := fun _ => Except.ok lexRespDog
    esSearch := fun _ => Except.ok []
    presign := fun _ _ => Except.ok "https://example.com/url" }

/-- Search request whose Lex response resolves zero slots. -/
def envSearchNoSlots : SearchEnv :=
  { queryStringParameters := some [("q", "hello")]
    lex := fun _ => Except.ok { slots := [] }
    esSearch := fun _ => Except.ok []
    presign := fun _ _ => Except.ok "https://example.com/url" }

/-- A stored photo document returned as a search hit. -/
def photoDog : Photo :=
  { bucket := "b1", objectKey := "k1", labels := ["dog"] }

/-- Search request with one hit whose presign call fails. -/
def envSearchPresignFail : SearchEnv :=
  { queryStringParameters := some [("q", "dogs")]
    lex := fun _ => Except.ok lexRespDog
    esSearch := fun _ => Except.ok [photoDog]
    presign := fun _ _ => Except.error "denied" }

/-- Search request with no `queryStringParameters` entry at all. -/
def envSearchNoQuery : SearchEnv :=
  { queryStringParameters := none
    lex := fun _ => Except.ok { slots := [] }
    esSearch := fun _ => Except.ok []
    presign := fun _ _ => Except.ok "https://example.com/url" }

/-- Search request whose query parameter is a single space. -/
def envSearchWhitespace : SearchEnv :=
  { queryStringParameters := some [("q", " ")]
    lex := fun _ => Except.ok { slots := [] }
    esSearch := fun _ => Except.ok []
    presign := fun _ _ => Except.ok "https://example.com/url" }

end PhotoSearch

namespace PhotoSearch

/-! ### Lemmas about the string primitives -/

theorem toNat_ofNat_of_lt (n : Nat) (h : n < 55296) : (Char.ofNat n).toNat = n := by
  rw [Char.ofNat, dif_pos (Or.inl h)]
  rfl

theorem toLower_of_upper (c : Char) (h : 65 ≤ c.toNat ∧ c.toNat ≤ 90) :
    c.toLower = Char.ofNat (c.toNat + 32) := by
  unfold Char.toLower
  rw [if_pos ⟨h.1, h.2⟩]

theorem toLower_of_not_upper (c : Char) (h : ¬(65 ≤ c.toNat ∧ c.toNat ≤ 90)) :
    c.toLower = c := by
  unfold Char.toLower
  rw [if_neg (fun hc => h ⟨hc.1, hc.2⟩)]

theorem toNat_toLower_of_upper (c : Char) (h : 65 ≤ c.toNat ∧ c.toNat ≤ 90) :
    c.toLower.toNat = c.toNat + 32 := by
  rw [toLower_of_upper c h]
  exact toNat_ofNat_of_lt _ (by omega)

theorem toLower_toLower (c : Char) : c.toLower.toLower = c.toLower := by
  by_cases h : 65 ≤ c.toNat ∧ c.toNat ≤ 90
  · have h2 : ¬(65 ≤ c.toLower.toNat ∧ c.toLower.toNat ≤ 90) := by
      rw [toNat_toLower_of_upper c h]
      omega
    exact toLower_of_not_upper _ h2
  · rw [toLower_of_not_upper c h]
    exact toLower_of_not_upper c h

theorem wsChar_eq_false_of_ge (c : Char) (h65 : 65 ≤ c.toNat) : wsChar c = false := by
  have hs : c ≠ ' ' := fun he => absurd (he ▸ h65) (by decide)
  have ht : c ≠ '\t' := fun he => absurd (he ▸ h65) (by decide)
  have hn : c ≠ '\n' := fun he => absurd (he ▸ h65) (by decide)
  have hr : c ≠ '\r' := fun he => absurd (he ▸ h65) (by decide)
  have hv : c ≠ '\x0b' := fun he => absurd (he ▸ h65) (by decide)
  have hf : c ≠ '\x0c' := fun he => absurd (he ▸ h65) (by decide)
  unfold wsChar
  simp only [Bool.or_eq_false_iff, decide_eq_false_iff_not]
  exact ⟨⟨⟨⟨⟨hs, ht⟩, hn⟩, hr⟩, hv⟩, hf⟩

theorem wsChar_toLower (c : Char) : wsChar c.toLower = wsChar c := by
  by_cases h : 65 ≤ c.toNat ∧ c.toNat ≤ 90
  · rw [wsChar_eq_false_of_ge c h.1, wsChar_eq_false_of_ge]
    rw [toNat_toLower_of_upper c h]
    omega
  · rw [toLower_of_not_upper c h]

theorem head_false_of_dropWhile {p : Char → Bool} {l : List Char} {c : Char}
    (h : (l.dropWhile p).head? = some c) : p c = false := by
  induction l with
  | nil => simp [List.dropWhile] at h
  | cons a t ih =>
    rw [List.dropWhile_cons] at h
    by_cases hp : p a
    · rw [if_pos hp] at h
      exact ih h
    · rw [if_neg hp] at h
      simp only [List.head?_cons, Option.some.injEq] at h
      rw [← h]
      exact Bool.eq_false_iff.mpr hp

theorem dropWhile_eq_self_of_head {p : Char → Bool} {l : List Char}
    (h : ∀ c, l.head? = some c → p c = false) : l.dropWhile p = l := by
  cases l with
  | nil => rfl
  | cons a t =>
    rw [List.dropWhile_cons, if_neg]
    simp [h a rfl]

theorem getLast?_dropWhile {p : Char → Bool} (l : List Char)
    (h : l.dropWhile p ≠ []) : (l.dropWhile p).getLast? = l.getLast? := by
  induction l with
  | nil => simp [List.dropWhile] at h
  | cons a t ih =>
    rw [List.dropWhile_cons]
    by_cases hp : p a
    · rw [List.dropWhile_cons, if_pos hp] at h
      rw [if_pos hp, ih h]
      have ht : t ≠ [] := by
        intro he
        rw [he] at h
        simp [List.dropWhile] at h
      cases t with
      | nil => exact absurd rfl ht
      | cons b u => rw [List.getLast?_cons_cons]
    · rw [if_neg hp]

theorem stripChars_stripChars (l : List Char) :
    stripChars (stripChars l) = stripChars l := by
  by_cases hC : (l.dropWhile wsChar).reverse.dropWhile wsChar = []
  · unfold stripChars
    rw [hC]
    rfl
  · -- the head of the stripped list is the head of `l.dropWhile wsChar`,
    -- hence not whitespace; the head of the reversed stripped list comes
    -- from an inner `dropWhile`, hence not whitespace either
    have step1 : ((l.dropWhile wsChar).reverse.dropWhile wsChar).reverse.dropWhile wsChar
        = ((l.dropWhile wsChar).reverse.dropWhile wsChar).reverse := by
      apply dropWhile_eq_self_of_head
      intro c hc
      rw [List.head?_reverse, getLast?_dropWhile _ hC, List.getLast?_reverse] at hc
      exact head_false_of_dropWhile hc
    have step2 : ((l.dropWhile wsChar).reverse.dropWhile wsChar).dropWhile wsChar
        = (l.dropWhile wsChar).reverse.dropWhile wsChar :=
      dropWhile_eq_self_of_head (fun c hc => head_false_of_dropWhile hc)
    unfold stripChars
    rw [step1, List.reverse_reverse, step2]

theorem stripChars_map_toLower (l : List Char) :
    stripChars (l.map Char.toLower) = (stripChars l).map Char.toLower := by
  have hws : (fun c => wsChar (Char.toLower c)) = wsChar := by
    funext c
    exact wsChar_toLower c
  unfold stripChars
  rw [List.dropWhile_map, show wsChar ∘ Char.toLower = (fun c => wsChar (Char.toLower c)) from rfl,
    hws, ← List.map_reverse, List.dropWhile_map,
    show wsChar ∘ Char.toLower = (fun c => wsChar (Char.toLower c)) from rfl, hws,
    ← List.map_reverse]

theorem pyStrip_pyLower_pyStrip (s : String) :
    pyStrip (pyLower (pyStrip s)) = pyLower (pyStrip s) := by
  unfold pyStrip pyLower
  have : stripChars ((stripChars s.data).map Char.toLower)
      = (stripChars s.data).map Char.toLower := by
    rw [stripChars_map_toLower, stripChars_stripChars]
  simp [this]

theorem pyLower_pyLower (s : String) : pyLower (pyLower s) = pyLower s := by
  unfold pyLower
  simp only [List.map_map]
  congr 1
  apply List.map_congr_left
  intro c _
  exact toLower_toLower c

/-! ### Lemmas about the two handlers -/

theorem dedup_toFinset (l : List String) : l.dedup.toFinset = l.toFinset := by
  ext a
  simp [List.mem_dedup]

theorem reconcile_toFinset (A B : List String) :
    (reconcile A B).toFinset = A.toFinset ∪ B.toFinset := by
  rw [reconcile, dedup_toFinset, List.toFinset_append]

theorem runRecords_error_of_split (env : IndexEnv) :
    ∀ (pre : List S3Record) (r : S3Record) (rest : List S3Record) (e : String),
      (∀ r₀ ∈ pre, index_to_elasticsearch env (photo_doc env r₀) r₀.key = Except.ok ()) →
      index_to_elasticsearch env (photo_doc env r) r.key = Except.error e →
      runRecords env (pre ++ r :: rest) =
        (pre.map (fun r₀ => (photo_doc env r₀, r₀.key)) ++ [(photo_doc env r, r.key)],
         Except.error e) := by
  intro pre
  induction pre with
  | nil =>
    intro r rest e _ herr
    simp [runRecords, herr]
  | cons p pre ih =>
    intro r rest e hok herr
    have hp := hok p (List.mem_cons_self p pre)
    have htail := ih r rest e (fun r₀ h₀ => hok r₀ (List.mem_cons_of_mem p h₀)) herr
    simp [runRecords, hp, htail]

theorem runRecords_head (env : IndexEnv) (r : S3Record) (rest : List S3Record) :
    (runRecords env (r :: rest)).fst.head? = some (photo_doc env r, r.key) := by
  cases h : index_to_elasticsearch env (photo_doc env r) r.key with
  | ok u => simp [runRecords, h]
  | error e => simp [runRecords, h]

theorem lambda_handler_index_snd (env : IndexEnv) :
    (lambda_handler_index env).snd = (runRecords env env.records).fst := by
  unfold lambda_handler_index
  cases h : (runRecords env env.records).snd <;> simp [h]

theorem extract_keywords_acc (slots : List (String × Option SlotData)) (acc : List String) :
    slots.foldl
      (fun keywords p =>
        match p.snd with
        | some slot_data =>
          match slot_data.value with
          | some v => keywords ++ [v.originalValue]
          | none => keywords
        | none => keywords)
      acc = acc ++ extractKeywordsSpec slots := by
  induction slots generalizing acc with
  | nil => simp [extractKeywordsSpec]
  | cons p rest ih =>
    rw [List.foldl_cons, ih]
    cases hp : p.snd with
    | none => simp [extractKeywordsSpec, List.filterMap_cons, hp]
    | some slot_data =>
      cases hv : slot_data.value with
      | none => simp [extractKeywordsSpec, List.filterMap_cons, hp, hv]
      | some v => simp [extractKeywordsSpec, List.filterMap_cons, hp, hv]

theorem generate_pre_signed_urls_error_of_mem (env : SearchEnv) (photos : List Photo)
    (h : ∃ p ∈ photos, ∃ msg, env.presign p.bucket p.objectKey = Except.error msg) :
    ∃ e, (generate_pre_signed_urls env photos).snd = Except.error e := by
  induction photos with
  | nil => simp at h
  | cons photo rest ih =>
    obtain ⟨p, hp, msg, herr⟩ := h
    cases hcall : env.presign photo.bucket photo.objectKey with
    | error e2 =>
      exact ⟨"Error generating pre-signed URL: " ++ e2,
        by simp [generate_pre_signed_urls, hcall]⟩
    | ok url =>
      rcases List.mem_cons.mp hp with he | hm
      · subst he
        rw [hcall] at herr
        exact absurd herr (by simp)
      · obtain ⟨e, hge⟩ := ih ⟨p, hm, msg, herr⟩
        exact ⟨e, by simp [generate_pre_signed_urls, hcall, hge]⟩

/-! ### Claims -/

/-- Claim C1, counterexample: in a two-record batch whose first index
write fails, the handler attempts an upsert only for the first record —
the second record is never fetched, labeled, reconciled or upserted —
and the batch gets a single 500 error response carrying only the first
failure, not an aggregate per-record report.  This falsifies the claim
that processing of the remaining records still takes place. -/
theorem C1_counterexample :
    envIndexFail.records.map S3Record.key = ["k1", "k2"] ∧
    (lambda_handler_index envIndexFail).snd.map Prod.snd = ["k1"] ∧
    "k2" ∉ (lambda_handler_index envIndexFail).snd.map Prod.snd ∧
    (lambda_handler_index envIndexFail).fst =
      { statusCode := 500, body := "Error processing photo = boom" } := by
  decide

/-- Claim C1 (amended): the whole batch is processed inside one `try`,
so when an index write fails for one record, the handler attempts no
upsert for any later record of the batch and returns a single
batch-level 500 response carrying that one error message. -/
theorem C1_index_failure_aborts_batch (env : IndexEnv) (pre : List S3Record)
    (r : S3Record) (rest : List S3Record) (e : String)
    (hrecords : env.records = pre ++ r :: rest)
    (hok : ∀ r₀ ∈ pre, index_to_elasticsearch env (photo_doc env r₀) r₀.key = Except.ok ())
    (herr : index_to_elasticsearch env (photo_doc env r) r.key = Except.error e) :
    lambda_handler_index env =
      ({ statusCode := 500, body := "Error processing photo = " ++ e },
       pre.map (fun r₀ => (photo_doc env r₀, r₀.key)) ++ [(photo_doc env r, r.key)]) := by
  have h := runRecords_error_of_split env pre r rest e hok herr
  unfold lambda_handler_index
  rw [hrecords, h]

/-- Claim C1, witness: the amended theorem applied to the concrete
failing batch. -/
theorem C1_witness :
    lambda_handler_index envIndexFail =
      ({ statusCode := 500, body := "Error processing photo = " ++ "boom" },
       [(photo_doc envIndexFail { bucket := "b1", key := "k1" }, "k1")]) :=
  C1_index_failure_aborts_batch envIndexFail [] { bucket := "b1", key := "k1" }
    [{ bucket := "b1", key := "k2" }] "boom" rfl
    (fun r₀ h₀ => absurd h₀ (List.not_mem_nil r₀)) rfl

/-- Claim C2, counterexample: a record whose object key and bucket are
both empty is not rejected with an `InvalidInputError`: the handler
builds a document for it, upserts it under the empty id, and reports
batch success.  This falsifies the claim that document shaping
validates the two fields and skips the remaining pipeline steps. -/
theorem C2_counterexample :
    envEmptyRecord.records = [{ bucket := "", key := "" }] ∧
    (lambda_handler_index envEmptyRecord).snd =
      [({ objectKey := "", bucket := "", createdTimestamp := "2024-01-01T00:00:00",
          labels := [] }, "")] ∧
    (lambda_handler_index envEmptyRecord).fst.statusCode = 200 := by
  decide

/-- Claim C2 (amended): no validation of `objectKey` or `bucket` is
performed; a record whose key and bucket are both empty proceeds
through the pipeline like any other, and a document is built and its
upsert attempted for it. -/
theorem C2_empty_fields_not_validated (env : IndexEnv) (r : S3Record)
    (rest : List S3Record) (hrecords : env.records = r :: rest)
    (hkey : r.key = "") (hbucket : r.bucket = "") :
    (lambda_handler_index env).snd.head? = some (photo_doc env r, r.key) := by
  rw [lambda_handler_index_snd, hrecords]
  exact runRecords_head env r rest

/-- Claim C2, witness: the amended theorem applied to the concrete
empty-fields record. -/
theorem C2_witness :
    (lambda_handler_index envEmptyRecord).snd.head? =
      some (photo_doc envEmptyRecord { bucket := "", key := "" }, "") :=
  C2_empty_fields_not_validated envEmptyRecord { bucket := "", key := "" } [] rfl rfl rfl

/-- Claim C3: `reconcile` — `list(set(rekognition_labels + custom_labels))`
— is order-independent and idempotent as a set, its result is
duplicate-free, and its member set is exactly the union of the member
sets of the two input sequences. -/
theorem C3_reconcile_is_set_union (A B : List String) :
    (reconcile A B).toFinset = (reconcile B A).toFinset ∧
    (reconcile A B).Nodup ∧
    (reconcile A B).toFinset = A.toFinset ∪ B.toFinset ∧
    (reconcile (reconcile A B) (reconcile A B)).toFinset = (reconcile A B).toFinset := by
  refine ⟨?_, List.nodup_dedup _, reconcile_toFinset A B, ?_⟩
  · rw [reconcile_toFinset, reconcile_toFinset, Finset.union_comm]
  · rw [reconcile_toFinset, Finset.union_self]

/-- Claim C4: every token produced by custom-label parsing is trimmed,
lower-cased and non-empty; detected label names are lower-cased; and
combining detected labels `["Cat"]` with the custom-label string
`"  cat , Dog "` yields exactly the label set `{"cat", "dog"}`. -/
theorem C4_label_normalization :
    (∀ s t, t ∈ parse_custom_labels s → pyStrip t = t ∧ pyLower t = t ∧ t ≠ "") ∧
    (∀ names n, n ∈ detect_label_names names → pyLower n = n) ∧
    (reconcile (detect_label_names ["Cat"]) (parse_custom_labels "  cat , Dog ")).toFinset
      = ({"cat", "dog"} : Finset String) := by
  refine ⟨?_, ?_, by decide⟩
  · intro s t ht
    unfold parse_custom_labels at ht
    by_cases hs : s = ""
    · rw [if_pos hs] at ht
      exact absurd ht (List.not_mem_nil t)
    · rw [if_neg hs, List.mem_filter] at ht
      obtain ⟨hmem, hne⟩ := ht
      rw [List.mem_map] at hmem
      obtain ⟨piece, _, hpt⟩ := hmem
      subst hpt
      exact ⟨pyStrip_pyLower_pyStrip piece, pyLower_pyLower _, by simpa using hne⟩
  · intro names n hn
    rw [detect_label_names, List.mem_map] at hn
    obtain ⟨m, _, hm⟩ := hn
    subst hm
    exact pyLower_pyLower m

/-- Claim C4, witness: the normalization guarantees applied to a
concrete token of a concrete metadata string. -/
theorem C4_witness :
    pyStrip "dog" = "dog" ∧ pyLower "dog" = "dog" ∧ "dog" ≠ "" :=
  C4_label_normalization.1 "  cat , Dog " "dog" (by decide)

/-- Claim C5: for a non-empty keyword sequence, the body sent to the
index is exactly `query_body keywords`, whose `should` array holds one
`match` clause on `labels` per keyword, whose `minimum_should_match` is
1, and whose `size` is exactly 100. -/
theorem C5_disjunctive_query_shape (env : SearchEnv) (q : String) (lexResp : LexResponse)
    (hq : query_truthy env = some q) (hlex : env.lex q = Except.ok lexResp)
    (hkw : extract_keywords lexResp.slots ≠ []) :
    (lambda_handler_search env).snd.esCalls = [query_body (extract_keywords lexResp.slots)] ∧
    ∀ ks : List String,
      jLookup (query_body ks) "size" = some (JVal.num 100) ∧
      ((jLookup (query_body ks) "query").bind (fun v => jLookup v "bool")).bind
        (fun v => jLookup v "minimum_should_match") = some (JVal.num 1) ∧
      ((jLookup (query_body ks) "query").bind (fun v => jLookup v "bool")).bind
        (fun v => jLookup v "should") = some (JVal.arr (ks.map match_clause)) ∧
      (ks.map match_clause).length = ks.length ∧
      ∀ k ∈ ks, match_clause k = JVal.obj [("match", JVal.obj [("labels", JVal.str k)])] := by
  constructor
  · simp only [lambda_handler_search, hq, hlex, if_neg hkw]
    split
    · rfl
    · split <;> rfl
  · intro ks
    refine ⟨rfl, rfl, rfl, List.length_map _ _, ?_⟩
    intro k _
    rfl

/-- Claim C5, witness: the query-shape theorem applied to the concrete
one-keyword request. -/
theorem C5_witness :
    (lambda_handler_search envSearchOk).snd.esCalls = [query_body ["dog"]] :=
  (C5_disjunctive_query_shape envSearchOk "show me dogs" lexRespDog rfl rfl (by decide)).1

/-- Claim C6: when keyword extraction yields no keywords, the handler
responds 200 with an empty result list and makes no search-backend call
(and no presign call either). -/
theorem C6_no_keywords_no_search (env : SearchEnv) (q : String) (lexResp : LexResponse)
    (hq : query_truthy env = some q) (hlex : env.lex q = Except.ok lexResp)
    (hkw : extract_keywords lexResp.slots = []) :
    lambda_handler_search env =
      (response_handler 200 { error := none, results := [] },
       { lexCalls := [q], esCalls := [], presignCalls := [] }) := by
  simp [lambda_handler_search, hq, hlex, hkw]

/-- Claim C6, witness: the no-keywords theorem applied to the concrete
zero-slot Lex response. -/
theorem C6_witness :
    lambda_handler_search envSearchNoSlots =
      (response_handler 200 { error := none, results := [] },
       { lexCalls := ["hello"], esCalls := [], presignCalls := [] }) :=
  C6_no_keywords_no_search envSearchNoSlots "hello" { slots := [] } rfl rfl rfl

/-- Claim C7: keyword extraction returns the ordered sequence of each
slot's recognized original value, skipping slots with no recognized
value, and returns the empty sequence when no slot has one. -/
theorem C7_extract_keywords_correct (slots : List (String × Option SlotData)) :
    extract_keywords slots = extractKeywordsSpec slots ∧
    ((∀ p ∈ slots, p.snd.bind SlotData.value = none) → extract_keywords slots = []) := by
  have heq : extract_keywords slots = extractKeywordsSpec slots := by
    unfold extract_keywords
    rw [extract_keywords_acc]
    rfl
  refine ⟨heq, fun h => ?_⟩
  rw [heq]
  unfold extractKeywordsSpec
  rw [List.filterMap_eq_nil_iff]
  intro p hp
  rw [h p hp]
  rfl

/-- Claim C7, witness: extraction on a one-slot mapping whose slot has
no recognized value. -/
theorem C7_witness :
    extract_keywords [("Keyword", (none : Option SlotData))] = [] :=
  (C7_extract_keywords_correct [("Keyword", none)]).2 (by decide)

/-- Claim C8: a presign failure for any single matched photo aborts the
whole request: the handler responds 500 with the error message and an
empty result list, never a partial-results response. -/
theorem C8_presign_failure_is_request_fatal (env : SearchEnv) (q : String)
    (lexResp : LexResponse)
    (hq : query_truthy env = some q) (hlex : env.lex q = Except.ok lexResp)
    (hkw : extract_keywords lexResp.slots ≠ [])
    (hfail : ∃ p ∈ search_elasticsearch env (extract_keywords lexResp.slots),
      ∃ msg, env.presign p.bucket p.objectKey = Except.error msg) :
    ∃ e, lambda_handler_search env =
      (response_handler 500 { error := some e, results := [] },
       { lexCalls := [q], esCalls := [query_body (extract_keywords lexResp.slots)],
         presignCalls := (generate_pre_signed_urls env
           (search_elasticsearch env (extract_keywords lexResp.slots))).fst }) := by
  obtain ⟨e, he⟩ := generate_pre_signed_urls_error_of_mem env _ hfail
  have hne : search_elasticsearch env (extract_keywords lexResp.slots) ≠ [] := by
    obtain ⟨p, hp, _⟩ := hfail
    intro h0
    rw [h0] at hp
    exact absurd hp (List.not_mem_nil p)
  refine ⟨e, ?_⟩
  simp [lambda_handler_search, hq, hlex, hkw, hne, he]

/-- Claim C8, witness: the presign-failure theorem applied to the
concrete one-hit request whose presign call is denied. -/
theorem C8_witness :
    ∃ e, lambda_handler_search envSearchPresignFail =
      (response_handler 500 { error := some e, results := [] },
       { lexCalls := ["dogs"], esCalls := [query_body ["dog"]],
         presignCalls := (generate_pre_signed_urls envSearchPresignFail [photoDog]).fst }) :=
  C8_presign_failure_is_request_fatal envSearchPresignFail "dogs" lexRespDog rfl rfl
    (by decide) ⟨photoDog, by decide, "denied", rfl⟩

/-- Claim C9: a missing (or empty) query parameter yields a 400 response
with an empty result list, with no Lex, search-backend or object-store
call made. -/
theorem C9_missing_query_400 (env : SearchEnv) (hq : query_truthy env = none) :
    lambda_handler_search env =
      (response_handler 400 { error := none, results := [] },
       { lexCalls := [], esCalls := [], presignCalls := [] }) := by
  simp [lambda_handler_search, hq]

/-- Claim C9, witness: the missing-query theorem applied to the event
without `queryStringParameters`. -/
theorem C9_witness :
    lambda_handler_search envSearchNoQuery =
      (response_handler 400 { error := none, results := [] },
       { lexCalls := [], esCalls := [], presignCalls := [] }) :=
  C9_missing_query_400 envSearchNoQuery rfl

/-- Claim C10: a whitespace-only query parameter value is treated as
present and non-empty — the `if not query` test checks falsiness of the
untrimmed string — so the handler does not respond 400 and forwards the
raw whitespace text to Lex. -/
theorem C10_whitespace_query_not_rejected (env : SearchEnv) (s : String)
    (hqsp : env.queryStringParameters = some [("q", s)])
    (hne : s ≠ "")
    (hws : ∀ c ∈ s.data, wsChar c = true) :
    (lambda_handler_search env).fst.statusCode ≠ 400 ∧
    (lambda_handler_search env).snd.lexCalls = [s] := by
  have hq : query_truthy env = some s := by
    simp [query_truthy, hqsp, List.lookup, hne]
  cases hlex : env.lex s with
  | error e =>
    simp [lambda_handler_search, hq, hlex, response_handler]
  | ok lexResp =>
    by_cases hkw : extract_keywords lexResp.slots = []
    · simp [lambda_handler_search, hq, hlex, hkw, response_handler]
    · by_cases hph : search_elasticsearch env (extract_keywords lexResp.slots) = []
      · simp [lambda_handler_search, hq, hlex, hkw, hph, response_handler]
      · cases hgen : (generate_pre_signed_urls env
            (search_elasticsearch env (extract_keywords lexResp.slots))).snd with
        | error e =>
          simp [lambda_handler_search, hq, hlex, hkw, hph, hgen, response_handler]
        | ok results =>
          simp [lambda_handler_search, hq, hlex, hkw, hph, hgen, response_handler]

/-- Claim C10, witness: the whitespace-query theorem applied to the
single-space query value. -/
theorem C10_witness :
    (lambda_handler_search envSearchWhitespace).fst.statusCode ≠ 400 ∧
    (lambda_handler_search envSearchWhitespace).snd.lexCalls = [" "] :=
  C10_whitespace_query_not_rejected envSearchWhitespace " " rfl (by decide) (by decide)

end PhotoSearch
